import Mathlib

/-!
Verification of the Meridian position-risk monitoring bot.

Shallow embedding of the Python sources under `src/`:
floats are modelled as rationals (`ℚ`), Python `None`-able floats as
`Option ℚ`, and Python truthiness (`if x:` being false for both `None`
and `0.0`, and for the empty string) is made explicit through the
`pyTruthy` / `pyOr` helpers below.  Stateful code is embedded by
explicit state passing.
-/

namespace Meridian

/-- Python truthiness of an optional float: `None` and `0.0` are falsy. -/
def pyTruthy (x : Option ℚ) : Bool :=
  match x with
  | none => false
  | some q => q != 0

/-- Python `a or b` for an optional float `a` and a float `b`:
returns `a` when truthy, else `b`. -/
def pyOr (a : Option ℚ) (b : ℚ) : ℚ :=
  match a with
  | none => b
  | some q => if q = 0 then b else q

/-- Python `str.upper()` (used as `side.upper()`): per-character
uppercasing, the character-wise definition of `String.toUpper`. -/
def strUpper (s : String) : String := String.mk (s.data.map Char.toUpper)

/-- Python `str.lower()` (used as `wallet_address.lower()`):
per-character lowercasing, the character-wise definition of
`String.toLower`. -/
def strLower (s : String) : String := String.mk (s.data.map Char.toLower)

/-! ## `src/config/settings.py` constants used by the claims -/

/-- Constant from `settings.py` line 103: `MAINTENANCE_MARGIN_RATIO = 0.03`. -/
def MAINTENANCE_MARGIN_RATIO : ℚ := 3 / 100

/-- Constant from `settings.py` line 104: `VOLATILITY_CONSTANT = 0.05`. -/
def VOLATILITY_CONSTANT : ℚ := 5 / 100

/-- Constant from `settings.py` line 83: `ALERT_FREQUENCY_WARNING = 3600`. -/
def ALERT_FREQUENCY_WARNING : ℚ := 3600

/-- Constant from `settings.py` line 84: `ALERT_FREQUENCY_CRITICAL = 1800`. -/
def ALERT_FREQUENCY_CRITICAL : ℚ := 1800

/-- Constant from `settings.py` line 85: `ALERT_FREQUENCY_URGENT = 300`. -/
def ALERT_FREQUENCY_URGENT : ℚ := 300

/-! ## `src/data/models.py` -/

/-- Enum `PositionSide` from `models.py`. -/
inductive PositionSide where
  | LONG
  | SHORT
deriving DecidableEq, Repr

/-- Enum `AlertSeverity` from `models.py`. -/
inductive AlertSeverity where
  | INFO
  | WARNING
  | CRITICAL
  | URGENT
deriving DecidableEq, Repr

/-- The `.value` string of an `AlertSeverity` member. -/
def AlertSeverity.value : AlertSeverity → String
  | .INFO => "info"
  | .WARNING => "warning"
  | .CRITICAL => "critical"
  | .URGENT => "urgent"

/-- Dataclass `Position` from `models.py` (the `id` / `updated_at` bookkeeping
fields, which no claim touches, are omitted). -/
structure Position where
  wallet_id : Int
  symbol : String
  qty : ℚ
  side : String
  entry_price : ℚ
  mark_price : Option ℚ
  liquidation_price : Option ℚ
  margin_ratio : Option ℚ
  unrealized_pnl : Option ℚ
deriving DecidableEq, Repr

/-- Property `Position.position_side`: `LONG` iff `side.upper() == "LONG"`, else `SHORT`. -/
def Position.position_side (p : Position) : PositionSide :=
  if strUpper p.side = "LONG" then PositionSide.LONG else PositionSide.SHORT

/-- Property `Position.position_value`: `abs(qty) * (mark_price or entry_price)`. -/
def Position.position_value (p : Position) : ℚ :=
  |p.qty| * pyOr p.mark_price p.entry_price

/-- Dataclass `AccountBalance` from `models.py` (bookkeeping fields omitted). -/
structure AccountBalance where
  wallet_id : Int
  total_margin : ℚ
  used_margin : ℚ
  available_margin : ℚ
  unrealized_pnl : ℚ
deriving DecidableEq, Repr

/-- Property `AccountBalance.margin_ratio`: `0` when `total_margin == 0`, else
`used_margin / total_margin * 100`. -/
def AccountBalance.margin_ratio (b : AccountBalance) : ℚ :=
  if b.total_margin = 0 then 0
  else (b.used_margin / b.total_margin) * 100

/-- Dataclass `Threshold` from `models.py`. -/
structure Threshold where
  wallet_id : Int
  threshold_warning : ℚ
  threshold_critical : ℚ
  threshold_urgent : ℚ
deriving DecidableEq, Repr

/-- Method `Threshold.get_alert_level`: urgent, then critical, then warning,
else no alert. -/
def Threshold.get_alert_level (th : Threshold) (margin_ratio : ℚ) :
    Option AlertSeverity :=
  if margin_ratio ≥ th.threshold_urgent then some AlertSeverity.URGENT
  else if margin_ratio ≥ th.threshold_critical then some AlertSeverity.CRITICAL
  else if margin_ratio ≥ th.threshold_warning then some AlertSeverity.WARNING
  else none

/-! ## `src/bot/risk_calculator.py` -/

/-- The constructor state of `RiskCalculator`. -/
structure RiskCalculator where
  maintenance_margin_ratio : ℚ
  volatility_constant : ℚ
deriving DecidableEq, Repr

/-- A `RiskCalculator()` built with the `settings.py` defaults. -/
def defaultRiskCalculator : RiskCalculator :=
  { maintenance_margin_ratio := MAINTENANCE_MARGIN_RATIO
    volatility_constant := VOLATILITY_CONSTANT }

/-- Method `RiskCalculator.calculate_liquidation_price`.  The Python guard is
`if leverage:`, which is false for `None` and for `0.0`, hence the
`pyTruthy` test; when it is true, `leverage` holds some nonzero `l`
and `leverage.getD 0 = l`. -/
def RiskCalculator.calculate_liquidation_price (rc : RiskCalculator)
    (position : Position) (leverage : Option ℚ) : ℚ :=
  let entry_price := position.entry_price
  if pyTruthy leverage then
    if position.position_side = PositionSide.LONG then
      entry_price * (1 - (1 / leverage.getD 0) + rc.maintenance_margin_ratio)
    else
      entry_price * (1 + (1 / leverage.getD 0) - rc.maintenance_margin_ratio)
  else
    if position.position_side = PositionSide.LONG then
      entry_price * (1 - rc.maintenance_margin_ratio)
    else
      entry_price * (1 + rc.maintenance_margin_ratio)

/-- Method `RiskCalculator.calculate_distance_to_liquidation`:
`abs(current - liq) / current * 100`.  The division raises
`ZeroDivisionError` when `current_price == 0`, which the source does
not guard; the raise is modelled as `none`. -/
def RiskCalculator.calculate_distance_to_liquidation (_rc : RiskCalculator)
    (current_price liquidation_price : ℚ) : Option ℚ :=
  if current_price = 0 then none
  else some (|current_price - liquidation_price| / current_price * 100)

/-- Method `RiskCalculator.estimate_time_to_liquidation`.  The outer
`Option` is the `ZeroDivisionError` propagating out of the
`calculate_distance_to_liquidation` call on its first line (`none` =
raise); the inner `Option` is the method's own `None`-or-hours result.
`(price_trend or 0)` is `pyOr price_trend 0`; the
`abs(price_trend) if price_trend else volatility_constant` conditional
uses Python truthiness again. -/
def RiskCalculator.estimate_time_to_liquidation (rc : RiskCalculator)
    (current_price liquidation_price : ℚ) (position_side : PositionSide)
    (price_trend : Option ℚ) : Option (Option ℚ) :=
  match rc.calculate_distance_to_liquidation current_price liquidation_price with
  | none => none
  | some distance =>
    let is_approaching : Bool :=
      if position_side = PositionSide.LONG then
        decide (current_price > liquidation_price) && decide (pyOr price_trend 0 < 0)
      else
        decide (current_price < liquidation_price) && decide (pyOr price_trend 0 > 0)
    if !is_approaching then some none
    else
      let hourly_change_rate :=
        if pyTruthy price_trend then |(price_trend.getD 0)| else rc.volatility_constant
      if hourly_change_rate = 0 then some none
      else some (some (distance / hourly_change_rate))

/-- Method `RiskCalculator.calculate_margin_impact`: new margin ratio after
adding collateral, `0` when the new total margin is `0`. -/
def RiskCalculator.calculate_margin_impact (_rc : RiskCalculator)
    (account_balance : AccountBalance) (additional_margin : ℚ) : ℚ :=
  let new_total_margin := account_balance.total_margin + additional_margin
  if new_total_margin = 0 then 0
  else (account_balance.used_margin / new_total_margin) * 100

/-- Method `RiskCalculator.calculate_position_reduction_impact`. -/
def RiskCalculator.calculate_position_reduction_impact (_rc : RiskCalculator)
    (position : Position) (account_balance : AccountBalance)
    (reduction_percentage : ℚ) : ℚ :=
  let position_value := position.position_value
  let position_margin := position_value / 10
  let freed_margin := position_margin * (reduction_percentage / 100)
  let new_used_margin := account_balance.used_margin - freed_margin
  if account_balance.total_margin = 0 then 0
  else max 0 ((new_used_margin / account_balance.total_margin) * 100)

/-- The semantic content of one recommendation string produced by
`generate_recommendations` (the rendered text is abstracted to the
numbers interpolated into it). -/
inductive Recommendation where
  | healthy (risk : ℚ)
  | closePosition (close_percentage : ℚ) (new_ratio : ℚ)
  | addCollateral (amount : ℚ) (new_ratio : ℚ)
  | combo (close_pct : ℚ) (amount : ℚ) (new_ratio : ℚ)
  | stopLoss (price : ℚ)
deriving DecidableEq, Repr

/-- Method `RiskCalculator.generate_recommendations`.  Notes kept from the
source: the combo option rebuilds an `AccountBalance` without passing
`unrealized_pnl`, so that field takes its dataclass default `0.0`; the
first assignment to `new_ratio_combo` in the source is immediately
overwritten, so only the overwriting value is observable; option 4
fires on `if position.liquidation_price:` (truthy, so not for `0.0`). -/
def RiskCalculator.generate_recommendations (rc : RiskCalculator)
    (position : Position) (account_balance : AccountBalance)
    (current_margin_ratio : ℚ) (target_ratio : ℚ) : List Recommendation :=
  if current_margin_ratio ≤ target_ratio then
    [Recommendation.healthy current_margin_ratio]
  else
    let risk_reduction_needed := current_margin_ratio - target_ratio
    let close_percentage :=
      min 100 (max 10 ((risk_reduction_needed / current_margin_ratio) * 100))
    let new_ratio_close :=
      rc.calculate_position_reduction_impact position account_balance close_percentage
    let additional_margin_needed :=
      account_balance.used_margin * ((100 / target_ratio) - (100 / current_margin_ratio))
    let option2 : List Recommendation :=
      if additional_margin_needed > 0 then
        [Recommendation.addCollateral additional_margin_needed
          (rc.calculate_margin_impact account_balance additional_margin_needed)]
      else []
    let moderate_close := min 50 (close_percentage / 2)
    let moderate_margin := additional_margin_needed / 2
    let new_ratio_combo :=
      rc.calculate_margin_impact
        { wallet_id := account_balance.wallet_id
          total_margin := account_balance.total_margin
          used_margin := account_balance.used_margin * (1 - moderate_close / 100)
          available_margin := account_balance.available_margin
          unrealized_pnl := 0 }
        moderate_margin
    let option4 : List Recommendation :=
      if pyTruthy position.liquidation_price then
        let lp := position.liquidation_price.getD 0
        if position.position_side = PositionSide.LONG then
          [Recommendation.stopLoss (lp * (1 + 5 / 100))]
        else
          [Recommendation.stopLoss (lp * (1 - 5 / 100))]
      else []
    [Recommendation.closePosition close_percentage new_ratio_close]
      ++ option2
      ++ [Recommendation.combo moderate_close moderate_margin new_ratio_combo]
      ++ option4

/-- Dataclass `RiskMetrics` from `models.py`. -/
structure RiskMetrics where
  position : Position
  account_balance : AccountBalance
  liquidation_price : ℚ
  distance_to_liquidation : ℚ
  estimated_hours_to_liquidation : Option ℚ
  recommended_actions : List Recommendation
deriving DecidableEq, Repr

/-- Method `RiskCalculator.calculate_risk_metrics`.  The source mutates the
`position` argument in place (`position.mark_price = ...`,
`position.liquidation_price = ...`, `position.margin_ratio = ...`)
after computing distance, hours and recommendations; the embedding
threads that state explicitly, returning on success the post-call
values of the two input objects together with the `RiskMetrics`
result.  `account_balance` is never written to in the source, so it is
returned unchanged.  When the effective price (`current_price or
position.mark_price or position.entry_price`) is `0`, the
`calculate_distance_to_liquidation` call raises `ZeroDivisionError`
before the mutation lines run, so the call returns `none` and neither
input object is updated; the second match arm mirrors the same raise
propagating out of `estimate_time_to_liquidation` (unreachable once
the distance call has succeeded, since both divide by the same
price). -/
def RiskCalculator.calculate_risk_metrics (rc : RiskCalculator)
    (position : Position) (account_balance : AccountBalance)
    (current_price : Option ℚ) (leverage : Option ℚ) (price_trend : Option ℚ) :
    Option (Position × AccountBalance × RiskMetrics) :=
  let mark_price := pyOr current_price (pyOr position.mark_price position.entry_price)
  let liquidation_price := rc.calculate_liquidation_price position leverage
  match rc.calculate_distance_to_liquidation mark_price liquidation_price with
  | none => none
  | some distance =>
    match rc.estimate_time_to_liquidation mark_price liquidation_price
        position.position_side price_trend with
    | none => none
    | some hours_to_liq =>
      let recommendations :=
        rc.generate_recommendations position account_balance
          account_balance.margin_ratio 60
      let position' : Position :=
        { position with
            mark_price := some mark_price
            liquidation_price := some liquidation_price
            margin_ratio := some account_balance.margin_ratio }
      some (position', account_balance,
        { position := position'
          account_balance := account_balance
          liquidation_price := liquidation_price
          distance_to_liquidation := distance
          estimated_hours_to_liquidation := hours_to_liq
          recommended_actions := recommendations })

/-! ## Association-list helpers (Python `dict` / `set` semantics) -/

/-- Lookup in an association list (Python `d.get(k)` = `some v` iff the
key is present, keys are unique in a Python dict so the first match is
the binding). -/
def assocLookup {α : Type} (l : List (String × α)) (k : String) : Option α :=
  match l with
  | [] => none
  | (k', v) :: rest => if k' = k then some v else assocLookup rest k

/-- Insert-or-overwrite in an association list (Python `d[k] = v`). -/
def assocInsert {α : Type} (l : List (String × α)) (k : String) (v : α) :
    List (String × α) :=
  match l with
  | [] => [(k, v)]
  | (k', v') :: rest =>
    if k' = k then (k', v) :: rest else (k', v') :: assocInsert rest k v

/-- Python `set.add` on a duplicate-free list model of a set. -/
def setAdd (l : List String) (x : String) : List String :=
  if x ∈ l then l else l ++ [x]

/-! ## `src/bot/liquidation_monitor.py`: alert throttle -/

/-- Field `LiquidationMonitor.last_alert_times`:
`wallet_address -> (f"{symbol}:{severity.value}" -> last alert time)`.
Timestamps are seconds on an abstract clock (`datetime.utcnow()` is
made an explicit `now` argument). -/
def ThrottleState : Type := List (String × List (String × ℚ))

/-- The severity-specific minimum re-alert interval chosen at the top of
`_should_send_alert` (the `else` arm covers `WARNING` and `INFO`). -/
def min_interval_for (alert_level : AlertSeverity) : ℚ :=
  if alert_level = AlertSeverity.URGENT then ALERT_FREQUENCY_URGENT
  else if alert_level = AlertSeverity.CRITICAL then ALERT_FREQUENCY_CRITICAL
  else ALERT_FREQUENCY_WARNING

/-- The throttle key `f"{position_symbol}:{alert_level.value}"`. -/
def throttleKey (position_symbol : String) (alert_level : AlertSeverity) : String :=
  position_symbol ++ ":" ++ alert_level.value

/-- Lookup of the last alert time recorded for a wallet and key
(`self.last_alert_times[wallet_address].get(key)`; an absent wallet row
behaves as an empty inner dict). -/
def lookupThrottle (st : ThrottleState) (wallet_address key : String) : Option ℚ :=
  match assocLookup st wallet_address with
  | none => none
  | some inner => assocLookup inner key

/-- Method `LiquidationMonitor._should_send_alert`: `False` iff a prior time is
recorded under the key and less than the severity's minimum interval
has elapsed. -/
def should_send_alert (st : ThrottleState) (wallet_address position_symbol : String)
    (alert_level : AlertSeverity) (now : ℚ) : Bool :=
  let min_interval := min_interval_for alert_level
  let key := throttleKey position_symbol alert_level
  match lookupThrottle st wallet_address key with
  | none => true
  | some last_time =>
    if now - last_time < min_interval then false else true

/-- The throttle-map update performed at the end of
`LiquidationMonitor._send_alert` after a confirmed dispatch:
`self.last_alert_times[wallet][key] = datetime.utcnow()`. -/
def record_alert (st : ThrottleState) (wallet_address position_symbol : String)
    (alert_level : AlertSeverity) (now : ℚ) : ThrottleState :=
  let key := throttleKey position_symbol alert_level
  let inner := (assocLookup st wallet_address).getD []
  assocInsert st wallet_address (assocInsert inner key now)

/-! ## `src/bot/liquidation_monitor.py`: account-payload normalization -/

/-- A decoded Python/JSON value, as received by
`_process_balance_data` (`balance_data`). -/
inductive PyVal where
  | num (q : ℚ)
  | str (s : String)
  | list (items : List PyVal)
  | dict (fields : List (String × PyVal))
  | null

/-- Python `float(v)`: defined on numbers; on any other decoded JSON
value (`dict`, `list`, `None`, non-numeric content) `float()` raises,
which the source catches in its outer `except` — modelled as `none`.
(Numeric strings, which `float()` would parse, do not occur in the
claims and are conservatively mapped to the raising branch.) -/
def pyFloat : PyVal → Option ℚ
  | .num q => some q
  | _ => none

/-- Python `d.get(k, default)` over a `PyVal` dict body. -/
def dictGet (fields : List (String × PyVal)) (k : String) (dflt : PyVal) : PyVal :=
  match assocLookup fields k with
  | some v => v
  | none => dflt

/-- The shape-normalization step of
`LiquidationMonitor._process_balance_data` (lines 212-233): a list
takes its first element (empty list dropped); a dict with a
`"balances"` key unwraps a nonempty list or a dict under it (anything
else dropped); a dict without that key is used as-is; any other type is
rejected with a logged error.  `none` means the update is dropped. -/
def normalize_balance_payload (balance_data : PyVal) : Option PyVal :=
  match balance_data with
  | .list items =>
    match items with
    | [] => none
    | d :: _ => some d
  | .dict fields =>
    match assocLookup fields "balances" with
    | some balances =>
      match balances with
      | .list (d :: _) => some d
      | .dict inner => some (PyVal.dict inner)
      | _ => none
    | none => some (PyVal.dict fields)
  | _ => none

/-- The field-extraction step of `_process_balance_data` (lines
238-264): each margin field tries several key names in order, with
`float()` conversion; a conversion failure raises and is caught by the
outer `except` (modelled as `none`).  The default for
`available_margin` is the computed `total_margin - used_margin`. -/
def extract_balance (wallet_id : Int) (fields : List (String × PyVal)) :
    Option AccountBalance := do
  let total_margin ← pyFloat (dictGet fields "total_margin"
    (dictGet fields "totalMargin"
      (dictGet fields "equity"
        (dictGet fields "totalEquity" (PyVal.num 0)))))
  let used_margin ← pyFloat (dictGet fields "used_margin"
    (dictGet fields "usedMargin"
      (dictGet fields "initialMargin" (PyVal.num 0))))
  let available_margin ← pyFloat (dictGet fields "available_margin"
    (dictGet fields "availableMargin"
      (dictGet fields "availableBalance" (PyVal.num (total_margin - used_margin)))))
  let unrealized_pnl ← pyFloat (dictGet fields "unrealized_pnl"
    (dictGet fields "unrealizedPnl"
      (dictGet fields "unrealizedProfit" (PyVal.num 0))))
  pure { wallet_id := wallet_id
         total_margin := total_margin
         used_margin := used_margin
         available_margin := available_margin
         unrealized_pnl := unrealized_pnl }

/-- Method `LiquidationMonitor._process_balance_data` as a transition on the
stored balance snapshot for one wallet (the `db.upsert_account_balance`
target).  A dropped or failing update leaves the previous snapshot;
a normalized non-dict record makes `balance_dict.get` raise, which the
outer `except` also turns into a drop. -/
def process_balance_data (wallet_id : Int) (stored : Option AccountBalance)
    (balance_data : PyVal) : Option AccountBalance :=
  match normalize_balance_payload balance_data with
  | none => stored
  | some balance_dict =>
    match balance_dict with
    | .dict fields =>
      match extract_balance wallet_id fields with
      | none => stored
      | some balance => some balance
    | _ => stored

/-! ## `src/websocket/reya_websocket.py` -/

/-- The subscription table `self.subscriptions : channel_type -> set of
identifiers` (the Python `set` modelled as a duplicate-free list) and
the callback table `self.callbacks : channel -> callback` (modelled by
its key set, `f"{channel_type}:{identifier}"`). -/
structure WSTables where
  subscriptions : List (String × List String)
  callbacks : List String
deriving DecidableEq, Repr

/-- Update `self.subscriptions[channel_type].add(identifier)` with the
`if channel_type not in self.subscriptions: ... = set()` preamble. -/
def subsAdd (subs : List (String × List String)) (channel_type identifier : String) :
    List (String × List String) :=
  match subs with
  | [] => [(channel_type, [identifier])]
  | (ct, ids) :: rest =>
    if ct = channel_type then (ct, setAdd ids identifier) :: rest
    else (ct, ids) :: subsAdd rest channel_type identifier

/-- The identifier set currently subscribed for one channel type. -/
def idsOf (subs : List (String × List String)) (channel_type : String) : List String :=
  match subs with
  | [] => []
  | (ct, ids) :: rest => if ct = channel_type then ids else idsOf rest channel_type

/-- The number of entries in the subscription set,
`sum(len(ids) for ids in self.subscriptions.values())`. -/
def subsCount (subs : List (String × List String)) : Nat :=
  (subs.map fun p => p.2.length).sum

/-- The state updates of `ReyaWebSocketManager.subscribe` (the
subscribe-message send when connected is traced separately). -/
def ws_subscribe (t : WSTables) (channel_type identifier : String) : WSTables :=
  { subscriptions := subsAdd t.subscriptions channel_type identifier
    callbacks := setAdd t.callbacks (channel_type ++ ":" ++ identifier) }

/-- Observable actions of the WebSocket manager: a subscribe-message
send (`_send_subscription`) or the dispatch of an inbound message to
the callback registered for a channel (`_handle_message`). -/
inductive WSEvent where
  | subscribeSend (channel_type : String) (identifier : String)
  | dispatch (channel : String)
deriving DecidableEq, Repr

/-- One inbound frame as seen by `_handle_message` after
`json.loads`: `parsed = false` models a frame that fails JSON decoding;
the two optional fields are `data.get('channel')` and
`data.get('type')` (absent key or non-string value gives `none`). -/
structure InboundMessage where
  parsed : Bool
  channel_field : Option String
  type_field : Option String
deriving DecidableEq, Repr

/-- Python `a or b` over the two optional channel strings: an empty
string is falsy, so it falls through to `b`. -/
def pyOrStr (a b : Option String) : Option String :=
  match a with
  | none => b
  | some s => if s = "" then b else some s

/-- Method `ReyaWebSocketManager._handle_message`: parse, extract the channel
(`data.get('channel') or data.get('type')`), drop when missing/falsy,
dispatch only when a callback is registered for the channel. -/
def handle_message (callbacks : List String) (msg : InboundMessage) : List WSEvent :=
  if !msg.parsed then []
  else
    match pyOrStr msg.channel_field msg.type_field with
    | none => []
    | some channel =>
      if channel = "" then []
      else if channel ∈ callbacks then [WSEvent.dispatch channel]
      else []

/-- The subscribe sends of `ReyaWebSocketManager._resubscribe_all`: one
`_send_subscription(channel_type, identifier)` per entry of the
subscription set, in table order. -/
def resubscribe_all_trace : List (String × List String) → List WSEvent
  | [] => []
  | (ct, ids) :: rest =>
    ids.map (fun identifier => WSEvent.subscribeSend ct identifier)
      ++ resubscribe_all_trace rest

/-- The dispatches of the `_listen` read loop over a given inbound
frame sequence. -/
def listen_trace (callbacks : List String) : List InboundMessage → List WSEvent
  | [] => []
  | m :: rest => handle_message callbacks m ++ listen_trace callbacks rest

/-- The event trace of one successful `connect()`:
the source `await`s `self._resubscribe_all()` to completion before
`asyncio.create_task(self._listen())`, so in the cooperative
single-threaded runtime every replayed subscribe send precedes every
read-loop dispatch. -/
def connect_success_trace (t : WSTables) (msgs : List InboundMessage) : List WSEvent :=
  resubscribe_all_trace t.subscriptions ++ listen_trace t.callbacks msgs

/-! ## `src/bot/liquidation_monitor.py`: monitoring supervisor -/

/-- The supervisor state touched by `start_monitoring_wallet`: the
`monitoring_tasks` key set (one running fallback-poll task per key) and
the WebSocket tables.  The initial-data fetch only writes to the
database and is not part of this state. -/
structure MonitorState where
  monitoring_tasks : List String
  ws : WSTables
deriving DecidableEq, Repr

/-- Method `LiquidationMonitor.start_monitoring_wallet`: lowercases the
address; if already monitored, logs a warning and returns unchanged;
otherwise subscribes the position and balance channels
(`_subscribe_wallet_websockets`) and registers the fallback task. -/
def start_monitoring_wallet (st : MonitorState) (wallet_address : String) :
    MonitorState :=
  if strLower wallet_address ∈ st.monitoring_tasks then st
  else
    { monitoring_tasks := st.monitoring_tasks ++ [strLower wallet_address]
      ws := ws_subscribe
              (ws_subscribe st.ws "wallet_positions" (strLower wallet_address))
              "wallet_balances" (strLower wallet_address) }

/-! ## Concrete fixtures -/

/-- A healthy LONG position fixture: entry price 100. -/
def positionEx : Position :=
  { wallet_id := 1, symbol := "ETH-PERP", qty := 2, side := "LONG"
    entry_price := 100, mark_price := none, liquidation_price := none
    margin_ratio := none, unrealized_pnl := none }

/-- A LONG position fixture with a negative entry price. -/
def positionNegEntry : Position :=
  { wallet_id := 1, symbol := "ETH-PERP", qty := 1, side := "LONG"
    entry_price := -100, mark_price := none, liquidation_price := none
    margin_ratio := none, unrealized_pnl := none }

/-- An account fixture: total 1000, used 950, hence margin ratio 95. -/
def accountEx : AccountBalance :=
  { wallet_id := 1, total_margin := 1000, used_margin := 950
    available_margin := 50, unrealized_pnl := 0 }

/-- The default thresholds fixture (80 / 90 / 95). -/
def thresholdEx : Threshold :=
  { wallet_id := 1, threshold_warning := 80, threshold_critical := 90
    threshold_urgent := 95 }

/-! ## Claim theorems -/

/-- Claim C10: supplying `leverage = 0` (like `None`) is falsy under the
`if leverage:` guard, so `calculate_liquidation_price` uses the
simplified no-leverage formula and never divides by zero. -/
theorem C10_zero_leverage_like_none (rc : RiskCalculator) (position : Position) :
    rc.calculate_liquidation_price position (some 0) =
      rc.calculate_liquidation_price position none := by
  simp [RiskCalculator.calculate_liquidation_price, pyTruthy]

/-- Claim C4: the derived margin ratio is `used / total * 100`, and `0`
when the total margin is `0`, for every used-margin value (no division
by zero). -/
theorem C4_margin_ratio (b : AccountBalance) :
    (b.total_margin = 0 → b.margin_ratio = 0) ∧
    (b.total_margin ≠ 0 →
      b.margin_ratio = b.used_margin / b.total_margin * 100) := by
  constructor <;> intro h <;> simp [AccountBalance.margin_ratio, h]

/-- Witness for C4 at a concrete zero-total account with nonzero used
margin. -/
theorem C4_margin_ratio_witness :
    ({ wallet_id := 1, total_margin := 0, used_margin := 123
       available_margin := 0, unrealized_pnl := 0 } : AccountBalance).margin_ratio
      = 0 :=
  (C4_margin_ratio _).1 rfl

/-- Counterexample to claim C1 as stated: its final inequality is not
true for every position — with the default maintenance margin ratio
(`3/100 ∈ (0,1)`) and leverage unset, a LONG position whose entry price
is negative gets a liquidation price strictly above its entry price. -/
theorem C1_counterexample :
    0 < defaultRiskCalculator.maintenance_margin_ratio ∧
    defaultRiskCalculator.maintenance_margin_ratio < 1 ∧
    positionNegEntry.position_side = PositionSide.LONG ∧
    ¬ (defaultRiskCalculator.calculate_liquidation_price positionNegEntry none ≤
        positionNegEntry.entry_price) := by
  have hside : positionNegEntry.position_side = PositionSide.LONG := by decide
  have hentry : positionNegEntry.entry_price = -100 := rfl
  have hval : defaultRiskCalculator.calculate_liquidation_price positionNegEntry none
      = -97 := by
    simp only [RiskCalculator.calculate_liquidation_price, pyTruthy, hside, hentry,
      defaultRiskCalculator, MAINTENANCE_MARGIN_RATIO]
    norm_num
  refine ⟨by norm_num [defaultRiskCalculator, MAINTENANCE_MARGIN_RATIO],
    by norm_num [defaultRiskCalculator, MAINTENANCE_MARGIN_RATIO], hside, ?_⟩
  rw [hval, hentry]
  norm_num

/-- Claim C1 (amended): the liquidation-price formulas are exactly as
claimed — `entry × (1 − m)` / `entry × (1 + m)` with no leverage and
`entry × (1 − 1/L + m)` / `entry × (1 + 1/L − m)` with a nonzero
leverage, the default `m` is `3/100` — and the long-≤-entry /
short-≥-entry consequence holds when additionally the entry price is
nonnegative. -/
theorem C1_liquidation_price (rc : RiskCalculator) (p : Position) (L : ℚ)
    (hL : L ≠ 0) :
    (p.position_side = PositionSide.LONG →
      rc.calculate_liquidation_price p none =
        p.entry_price * (1 - rc.maintenance_margin_ratio)) ∧
    (p.position_side = PositionSide.SHORT →
      rc.calculate_liquidation_price p none =
        p.entry_price * (1 + rc.maintenance_margin_ratio)) ∧
    (p.position_side = PositionSide.LONG →
      rc.calculate_liquidation_price p (some L) =
        p.entry_price * (1 - 1 / L + rc.maintenance_margin_ratio)) ∧
    (p.position_side = PositionSide.SHORT →
      rc.calculate_liquidation_price p (some L) =
        p.entry_price * (1 + 1 / L - rc.maintenance_margin_ratio)) ∧
    defaultRiskCalculator.maintenance_margin_ratio = 3 / 100 ∧
    (0 < rc.maintenance_margin_ratio → rc.maintenance_margin_ratio < 1 →
      0 ≤ p.entry_price →
      (p.position_side = PositionSide.LONG →
        rc.calculate_liquidation_price p none ≤ p.entry_price) ∧
      (p.position_side = PositionSide.SHORT →
        p.entry_price ≤ rc.calculate_liquidation_price p none)) := by
  refine ⟨?_, ?_, ?_, ?_, rfl, ?_⟩
  · intro hside
    simp [RiskCalculator.calculate_liquidation_price, pyTruthy, hside]
  · intro hside
    simp [RiskCalculator.calculate_liquidation_price, pyTruthy, hside]
  · intro hside
    simp [RiskCalculator.calculate_liquidation_price, pyTruthy, hL, hside]
  · intro hside
    simp [RiskCalculator.calculate_liquidation_price, pyTruthy, hL, hside]
  · intro hm0 hm1 he
    constructor <;> intro hside <;>
      simp [RiskCalculator.calculate_liquidation_price, pyTruthy, hside] <;>
      nlinarith [mul_nonneg he (le_of_lt hm0)]

/-- Witness for C1 at the concrete LONG fixture with leverage 5. -/
theorem C1_liquidation_price_witness :
    defaultRiskCalculator.calculate_liquidation_price positionEx none =
        positionEx.entry_price * (1 - defaultRiskCalculator.maintenance_margin_ratio) ∧
    defaultRiskCalculator.calculate_liquidation_price positionEx (some 5) =
        positionEx.entry_price *
          (1 - 1 / 5 + defaultRiskCalculator.maintenance_margin_ratio) ∧
    defaultRiskCalculator.calculate_liquidation_price positionEx none ≤
        positionEx.entry_price := by
  have h := C1_liquidation_price defaultRiskCalculator positionEx 5 (by norm_num)
  have hside : positionEx.position_side = PositionSide.LONG := by decide
  exact ⟨h.1 hside, h.2.2.1 hside,
    (h.2.2.2.2.2 (by norm_num [defaultRiskCalculator, MAINTENANCE_MARGIN_RATIO])
      (by norm_num [defaultRiskCalculator, MAINTENANCE_MARGIN_RATIO])
      (by norm_num [positionEx])).1 hside⟩

/-- Rank of an alert level in the order none < warning < critical <
urgent (the `INFO` member is never produced by `get_alert_level`). -/
def severityRank : Option AlertSeverity → Nat
  | none => 0
  | some AlertSeverity.INFO => 0
  | some AlertSeverity.WARNING => 1
  | some AlertSeverity.CRITICAL => 2
  | some AlertSeverity.URGENT => 3

/-- The severity's configured threshold is met by the ratio `r`
(`INFO` has no threshold and never counts as met). -/
def thresholdMet (th : Threshold) (r : ℚ) : AlertSeverity → Prop
  | AlertSeverity.INFO => False
  | AlertSeverity.WARNING => th.threshold_warning ≤ r
  | AlertSeverity.CRITICAL => th.threshold_critical ≤ r
  | AlertSeverity.URGENT => th.threshold_urgent ≤ r

/-- Helper for C3: the rank of `get_alert_level` is monotone in the
margin ratio. -/
theorem severityRank_alert_level_mono (th : Threshold) (r1 r2 : ℚ) (h : r1 ≤ r2) :
    severityRank (th.get_alert_level r1) ≤ severityRank (th.get_alert_level r2) := by
  unfold Threshold.get_alert_level
  rcases le_or_lt th.threshold_urgent r1 with hu1 | hu1
  · rw [if_pos (le_trans hu1 h), if_pos hu1]
  · rw [if_neg (not_le.mpr hu1)]
    rcases le_or_lt th.threshold_critical r1 with hc1 | hc1
    · rw [if_pos hc1]
      rcases le_or_lt th.threshold_urgent r2 with hu2 | hu2
      · rw [if_pos hu2]
        simp [severityRank]
      · rw [if_neg (not_le.mpr hu2), if_pos (le_trans hc1 h)]
    · rw [if_neg (not_le.mpr hc1)]
      rcases le_or_lt th.threshold_warning r1 with hw1 | hw1
      · rw [if_pos hw1]
        rcases le_or_lt th.threshold_urgent r2 with hu2 | hu2
        · rw [if_pos hu2]
          simp [severityRank]
        · rw [if_neg (not_le.mpr hu2)]
          rcases le_or_lt th.threshold_critical r2 with hc2 | hc2
          · rw [if_pos hc2]
            simp [severityRank]
          · rw [if_neg (not_le.mpr hc2), if_pos (le_trans hw1 h)]
      · rw [if_neg (not_le.mpr hw1)]
        exact Nat.zero_le _

/-- Helper for C3: no met severity outranks the returned one. -/
theorem severityRank_le_alert_level (th : Threshold) (r : ℚ) (s : AlertSeverity)
    (hs : thresholdMet th r s) :
    severityRank (some s) ≤ severityRank (th.get_alert_level r) := by
  unfold Threshold.get_alert_level
  cases s with
  | INFO => exact absurd hs id
  | WARNING =>
    have hs' : th.threshold_warning ≤ r := hs
    rcases le_or_lt th.threshold_urgent r with hu | hu
    · rw [if_pos hu]
      simp [severityRank]
    · rw [if_neg (not_le.mpr hu)]
      rcases le_or_lt th.threshold_critical r with hc | hc
      · rw [if_pos hc]
        simp [severityRank]
      · rw [if_neg (not_le.mpr hc), if_pos hs']
  | CRITICAL =>
    have hs' : th.threshold_critical ≤ r := hs
    rcases le_or_lt th.threshold_urgent r with hu | hu
    · rw [if_pos hu]
      simp [severityRank]
    · rw [if_neg (not_le.mpr hu), if_pos hs']
  | URGENT =>
    have hs' : th.threshold_urgent ≤ r := hs
    rw [if_pos hs']

/-- Claim C3: `get_alert_level` is monotone in the margin ratio, any
returned severity has its threshold met, no met severity outranks the
returned one (it is the highest met), and `none` is returned exactly
when the ratio is below all three thresholds. -/
theorem C3_alert_level (th : Threshold) (r r1 r2 : ℚ) (h12 : r1 < r2) :
    severityRank (th.get_alert_level r1) ≤ severityRank (th.get_alert_level r2) ∧
    (∀ s, th.get_alert_level r = some s → thresholdMet th r s) ∧
    (∀ s, thresholdMet th r s →
      severityRank (some s) ≤ severityRank (th.get_alert_level r)) ∧
    (th.get_alert_level r = none ↔
      r < th.threshold_warning ∧ r < th.threshold_critical ∧
        r < th.threshold_urgent) := by
  refine ⟨severityRank_alert_level_mono th r1 r2 (le_of_lt h12), ?_,
    fun s hs => severityRank_le_alert_level th r s hs, ?_, ?_⟩
  · intro s hs
    unfold Threshold.get_alert_level at hs
    split_ifs at hs with h1 h2 h3
    · injection hs with hs
      subst hs
      exact h1
    · injection hs with hs
      subst hs
      exact h2
    · injection hs with hs
      subst hs
      exact h3
  · intro hn
    unfold Threshold.get_alert_level at hn
    split_ifs at hn with h1 h2 h3
    exact ⟨not_le.mp h3, not_le.mp h2, not_le.mp h1⟩
  · rintro ⟨hw, hc, hu⟩
    unfold Threshold.get_alert_level
    rw [if_neg (not_le.mpr hu), if_neg (not_le.mpr hc), if_neg (not_le.mpr hw)]

/-- Witness for C3 at the default 80/90/95 thresholds, `r1 = 85`,
`r2 = 92`, with the highest-met direction checked at `r = 92`. -/
theorem C3_alert_level_witness :
    severityRank (thresholdEx.get_alert_level 85) ≤
        severityRank (thresholdEx.get_alert_level 92) ∧
    thresholdMet thresholdEx 92 AlertSeverity.CRITICAL ∧
    severityRank (some AlertSeverity.WARNING) ≤
        severityRank (thresholdEx.get_alert_level 92) := by
  have h := C3_alert_level thresholdEx 92 85 92 (by norm_num)
  have hlevel : thresholdEx.get_alert_level 92 = some AlertSeverity.CRITICAL := by
    decide
  have hwarn : thresholdMet thresholdEx 92 AlertSeverity.WARNING := by
    show thresholdEx.threshold_warning ≤ 92
    norm_num [thresholdEx]
  exact ⟨h.1, h.2.1 AlertSeverity.CRITICAL hlevel,
    h.2.2.1 AlertSeverity.WARNING hwarn⟩

/-- Helper: looking up a freshly inserted key finds the new value. -/
theorem assocLookup_insert {α : Type} (l : List (String × α)) (k : String) (v : α) :
    assocLookup (assocInsert l k v) k = some v := by
  induction l with
  | nil => simp [assocInsert, assocLookup]
  | cons hd tl ih =>
    obtain ⟨k', v'⟩ := hd
    by_cases h : k' = k
    · simp [assocInsert, assocLookup, h]
    · simp [assocInsert, assocLookup, h, ih]

/-- Helper for C2: after `record_alert`, the throttle map holds the
recorded time under exactly that wallet and key. -/
theorem lookupThrottle_record_alert (st : ThrottleState) (wallet_address
    position_symbol : String) (alert_level : AlertSeverity) (t0 : ℚ) :
    lookupThrottle (record_alert st wallet_address position_symbol alert_level t0)
        wallet_address (throttleKey position_symbol alert_level) = some t0 := by
  have h1 : assocLookup
      (record_alert st wallet_address position_symbol alert_level t0)
      wallet_address =
        some (assocInsert ((assocLookup st wallet_address).getD [])
          (throttleKey position_symbol alert_level) t0) := by
    unfold record_alert
    exact assocLookup_insert _ _ _
  unfold lookupThrottle
  rw [h1]
  exact assocLookup_insert _ _ _

/-- Claim C2: the throttle intervals are 300 s (urgent), 1800 s
(critical) and 3600 s (warning); a check with no recorded timestamp
returns true, a check whose elapsed time exceeds the severity's
interval returns true, and around a `record_alert` at `t0` the check
at `t0 + ε` (0 ≤ ε < interval) returns false while the check at
`t0 + interval + ε` returns true. -/
theorem C2_throttle (st : ThrottleState) (wallet_address position_symbol : String)
    (alert_level : AlertSeverity) (now t0 ε : ℚ) (hε0 : 0 ≤ ε)
    (hεI : ε < min_interval_for alert_level) :
    min_interval_for AlertSeverity.URGENT = 300 ∧
    min_interval_for AlertSeverity.CRITICAL = 1800 ∧
    min_interval_for AlertSeverity.WARNING = 3600 ∧
    (lookupThrottle st wallet_address (throttleKey position_symbol alert_level) = none →
      should_send_alert st wallet_address position_symbol alert_level now = true) ∧
    (∀ last_time,
      lookupThrottle st wallet_address (throttleKey position_symbol alert_level) =
          some last_time →
      min_interval_for alert_level < now - last_time →
      should_send_alert st wallet_address position_symbol alert_level now = true) ∧
    should_send_alert (record_alert st wallet_address position_symbol alert_level t0)
        wallet_address position_symbol alert_level (t0 + ε) = false ∧
    should_send_alert (record_alert st wallet_address position_symbol alert_level t0)
        wallet_address position_symbol alert_level
        (t0 + min_interval_for alert_level + ε) = true := by
  refine ⟨rfl, rfl, rfl, ?_, ?_, ?_, ?_⟩
  · intro hnone
    simp only [should_send_alert, hnone]
  · intro last_time hlast hgt
    simp only [should_send_alert, hlast]
    rw [if_neg (by push_neg; linarith)]
  · simp only [should_send_alert, lookupThrottle_record_alert]
    rw [if_pos (by linarith)]
  · simp only [should_send_alert, lookupThrottle_record_alert]
    rw [if_neg (by push_neg; linarith)]

/-- Witness for C2: empty throttle map, urgent severity, record at
`t0 = 1000`; the check 10 s later is suppressed, the check 310 s later
fires. -/
theorem C2_throttle_witness :
    should_send_alert
        (record_alert ([] : ThrottleState) "0xabc" "ETH-PERP" AlertSeverity.URGENT 1000)
        "0xabc" "ETH-PERP" AlertSeverity.URGENT (1000 + 10) = false ∧
    should_send_alert
        (record_alert ([] : ThrottleState) "0xabc" "ETH-PERP" AlertSeverity.URGENT 1000)
        "0xabc" "ETH-PERP" AlertSeverity.URGENT
        (1000 + min_interval_for AlertSeverity.URGENT + 10) = true := by
  have h := C2_throttle ([] : ThrottleState) "0xabc" "ETH-PERP" AlertSeverity.URGENT
    0 1000 10 (by norm_num)
    (by norm_num [min_interval_for, ALERT_FREQUENCY_URGENT])
  exact ⟨h.2.2.2.2.2.1, h.2.2.2.2.2.2⟩

/-- Discriminator for subscribe-send events. -/
def isSubscribeSend : WSEvent → Bool
  | WSEvent.subscribeSend _ _ => true
  | WSEvent.dispatch _ => false

/-- Helper for C5: the replay emits one send per subscription entry. -/
theorem resubscribe_all_trace_length (subs : List (String × List String)) :
    (resubscribe_all_trace subs).length = subsCount subs := by
  induction subs with
  | nil => rfl
  | cons hd tl ih =>
    obtain ⟨ct, ids⟩ := hd
    simp [resubscribe_all_trace, subsCount, List.sum_cons] at ih ⊢
    omega

/-- Helper for C5: every replay event is a subscribe send. -/
theorem resubscribe_all_trace_sends (subs : List (String × List String)) :
    ∀ e ∈ resubscribe_all_trace subs, isSubscribeSend e = true := by
  induction subs with
  | nil =>
    intro e he
    cases he
  | cons hd tl ih =>
    obtain ⟨ct, ids⟩ := hd
    intro e he
    simp only [resubscribe_all_trace, List.mem_append, List.mem_map] at he
    rcases he with ⟨identifier, _, rfl⟩ | he
    · rfl
    · exact ih e he

/-- Helper for C5: `_handle_message` only ever produces dispatch
events, never subscribe sends. -/
theorem handle_message_dispatch_only (callbacks : List String)
    (m : InboundMessage) :
    ∀ e ∈ handle_message callbacks m, isSubscribeSend e = false := by
  intro e he
  unfold handle_message at he
  split at he
  · cases he
  · split at he
    · cases he
    · split at he
      · cases he
      · split at he
        · simp at he
          subst he
          rfl
        · cases he

/-- Helper for C5: the read loop emits no subscribe sends. -/
theorem listen_trace_no_sends (callbacks : List String)
    (msgs : List InboundMessage) :
    ∀ e ∈ listen_trace callbacks msgs, isSubscribeSend e = false := by
  induction msgs with
  | nil =>
    intro e he
    cases he
  | cons m rest ih =>
    intro e he
    simp only [listen_trace, List.mem_append] at he
    rcases he with he | he
    · exact handle_message_dispatch_only callbacks m e he
    · exact ih e he

/-- Helper for C5: every currently subscribed `(channel, identifier)`
entry appears in the replay trace. -/
theorem mem_resubscribe_of_mem_idsOf (subs : List (String × List String))
    (ct identifier : String) (h : identifier ∈ idsOf subs ct) :
    WSEvent.subscribeSend ct identifier ∈ resubscribe_all_trace subs := by
  induction subs with
  | nil =>
    simp [idsOf] at h
  | cons hd tl ih =>
    obtain ⟨ct', ids⟩ := hd
    by_cases hc : ct' = ct
    · subst hc
      simp only [idsOf, if_pos rfl] at h
      simp only [resubscribe_all_trace, List.mem_append, List.mem_map]
      exact Or.inl ⟨identifier, h, rfl⟩
    · simp only [idsOf, if_neg hc] at h
      simp only [resubscribe_all_trace, List.mem_append]
      exact Or.inr (ih h)

/-- Claim C5: after a successful `connect()` with N entries in the
current subscription set, the trace starts with exactly the N replayed
subscribe sends — its N-prefix is precisely the replay, all of whose
events are subscribe sends, covering every subscribed entry — and
everything after position N (the read loop) contains no subscribe
send, so every dispatch comes after all N sends. -/
theorem C5_reconnect_replay (t : WSTables) (msgs : List InboundMessage) :
    (connect_success_trace t msgs).take (subsCount t.subscriptions) =
        resubscribe_all_trace t.subscriptions ∧
    ((connect_success_trace t msgs).take (subsCount t.subscriptions)).length =
        subsCount t.subscriptions ∧
    (∀ e ∈ (connect_success_trace t msgs).take (subsCount t.subscriptions),
        isSubscribeSend e = true) ∧
    (∀ e ∈ (connect_success_trace t msgs).drop (subsCount t.subscriptions),
        isSubscribeSend e = false) ∧
    (∀ ct identifier, identifier ∈ idsOf t.subscriptions ct →
        WSEvent.subscribeSend ct identifier ∈
          (connect_success_trace t msgs).take (subsCount t.subscriptions)) := by
  have hlen := resubscribe_all_trace_length t.subscriptions
  have htake : (connect_success_trace t msgs).take (subsCount t.subscriptions) =
      resubscribe_all_trace t.subscriptions := by
    unfold connect_success_trace
    rw [← hlen, List.take_left]
  have hdrop : (connect_success_trace t msgs).drop (subsCount t.subscriptions) =
      listen_trace t.callbacks msgs := by
    unfold connect_success_trace
    rw [← hlen, List.drop_left]
  refine ⟨htake, ?_, ?_, ?_, ?_⟩
  · rw [htake]
    exact hlen
  · rw [htake]
    exact resubscribe_all_trace_sends t.subscriptions
  · rw [hdrop]
    exact listen_trace_no_sends t.callbacks msgs
  · intro ct identifier hid
    rw [htake]
    exact mem_resubscribe_of_mem_idsOf t.subscriptions ct identifier hid

/-- Subscription tables fixture: two active subscriptions (a position
channel and a balance channel for one wallet). -/
def wsTablesEx : WSTables :=
  { subscriptions := [("wallet_positions", ["0xaaa"]), ("wallet_balances", ["0xaaa"])]
    callbacks := ["wallet_positions:0xaaa", "wallet_balances:0xaaa"] }

/-- An inbound frame routed to a registered callback. -/
def inboundEx : InboundMessage :=
  { parsed := true, channel_field := some "wallet_positions:0xaaa", type_field := none }

/-- Witness for C5 at the two-subscription fixture with one routable
inbound frame. -/
theorem C5_reconnect_replay_witness :
    (connect_success_trace wsTablesEx [inboundEx]).take
        (subsCount wsTablesEx.subscriptions) =
      resubscribe_all_trace wsTablesEx.subscriptions ∧
    WSEvent.subscribeSend "wallet_balances" "0xaaa" ∈
      (connect_success_trace wsTablesEx [inboundEx]).take
        (subsCount wsTablesEx.subscriptions) := by
  have h := C5_reconnect_replay wsTablesEx [inboundEx]
  exact ⟨h.1, h.2.2.2.2 "wallet_balances" "0xaaa" (by decide)⟩

/-- Helper for C6: adding an identifier updates exactly its own
channel's identifier set, with Python-set semantics. -/
theorem idsOf_subsAdd_self (subs : List (String × List String)) (ct identifier : String) :
    idsOf (subsAdd subs ct identifier) ct = setAdd (idsOf subs ct) identifier := by
  induction subs with
  | nil => simp [subsAdd, idsOf, setAdd]
  | cons hd tl ih =>
    obtain ⟨ct', ids⟩ := hd
    by_cases h : ct' = ct
    · subst h
      simp [subsAdd, idsOf]
    · simp [subsAdd, idsOf, h, ih]

/-- Helper for C6: adding an identifier leaves other channels'
identifier sets untouched. -/
theorem idsOf_subsAdd_other (subs : List (String × List String))
    (ct ct2 identifier : String) (h : ct ≠ ct2) :
    idsOf (subsAdd subs ct identifier) ct2 = idsOf subs ct2 := by
  induction subs with
  | nil => simp [subsAdd, idsOf, h]
  | cons hd tl ih =>
    obtain ⟨ct', ids⟩ := hd
    by_cases h2 : ct' = ct
    · subst h2
      simp [subsAdd, idsOf, h]
    · by_cases h3 : ct' = ct2 <;> simp [subsAdd, idsOf, h2, h3, ih, Ne.symm h]

/-- Helper for C6: a set-add of a fresh element yields exactly one
occurrence. -/
theorem count_setAdd_of_not_mem (l : List String) (x : String) (h : x ∉ l) :
    (setAdd l x).count x = 1 := by
  unfold setAdd
  rw [if_neg h]
  rw [List.count_append, List.count_eq_zero.mpr h]
  simp

/-- Claim C6: `start_monitoring_wallet` is idempotent — when the wallet
is not yet monitored, a first call registers one fallback task and one
position/balance subscription pair, and a second call is a no-op
returning the same state, so exactly one task and one pair exist, not
two. -/
theorem C6_start_idempotent (st : MonitorState) (wallet_address : String)
    (h1 : strLower wallet_address ∉ st.monitoring_tasks)
    (h2 : strLower wallet_address ∉ idsOf st.ws.subscriptions "wallet_positions")
    (h3 : strLower wallet_address ∉ idsOf st.ws.subscriptions "wallet_balances") :
    start_monitoring_wallet (start_monitoring_wallet st wallet_address)
        wallet_address = start_monitoring_wallet st wallet_address ∧
    ((start_monitoring_wallet st wallet_address).monitoring_tasks).count
        (strLower wallet_address) = 1 ∧
    (idsOf (start_monitoring_wallet st wallet_address).ws.subscriptions
        "wallet_positions").count (strLower wallet_address) = 1 ∧
    (idsOf (start_monitoring_wallet st wallet_address).ws.subscriptions
        "wallet_balances").count (strLower wallet_address) = 1 := by
  have hst1 : start_monitoring_wallet st wallet_address =
      { monitoring_tasks := st.monitoring_tasks ++ [strLower wallet_address]
        ws := ws_subscribe
                (ws_subscribe st.ws "wallet_positions" (strLower wallet_address))
                "wallet_balances" (strLower wallet_address) } := by
    unfold start_monitoring_wallet
    rw [if_neg h1]
  have hmem : strLower wallet_address ∈
      (start_monitoring_wallet st wallet_address).monitoring_tasks := by
    rw [hst1]
    simp
  refine ⟨?_, ?_, ?_, ?_⟩
  · conv_lhs => rw [start_monitoring_wallet]
    rw [if_pos hmem]
  · rw [hst1]
    simp only [List.count_append, List.count_eq_zero.mpr h1]
    simp
  · rw [hst1]
    simp only [ws_subscribe]
    rw [idsOf_subsAdd_other _ _ _ _ (by decide), idsOf_subsAdd_self]
    exact count_setAdd_of_not_mem _ _ h2
  · rw [hst1]
    simp only [ws_subscribe]
    rw [idsOf_subsAdd_self, idsOf_subsAdd_other _ _ _ _ (by decide)]
    exact count_setAdd_of_not_mem _ _ h3

/-- The empty supervisor state (no tasks, no subscriptions). -/
def monitorStateEx : MonitorState :=
  { monitoring_tasks := [], ws := { subscriptions := [], callbacks := [] } }

/-- Witness for C6 from the empty state with a mixed-case address. -/
theorem C6_start_idempotent_witness :
    start_monitoring_wallet (start_monitoring_wallet monitorStateEx "0xAbC") "0xAbC" =
        start_monitoring_wallet monitorStateEx "0xAbC" ∧
    ((start_monitoring_wallet monitorStateEx "0xAbC").monitoring_tasks).count
        (strLower "0xAbC") = 1 ∧
    (idsOf (start_monitoring_wallet monitorStateEx "0xAbC").ws.subscriptions
        "wallet_positions").count (strLower "0xAbC") = 1 := by
  have h := C6_start_idempotent monitorStateEx "0xAbC" (by decide) (by decide) (by decide)
  exact ⟨h.1, h.2.1, h.2.2.1⟩

/-- A payload whose type is neither list nor dict, which
`_process_balance_data` rejects with a logged error. -/
def isUnrecognizedShape : PyVal → Bool
  | PyVal.list _ => false
  | PyVal.dict _ => false
  | _ => true

/-- Claim C7: a `balances`-wrapped single record and a one-element list
both normalize to exactly the same stored snapshot as the record passed
directly (the record being a balance record, i.e. a dict without its
own `balances` key), and an unrecognized payload shape is dropped with
the previous snapshot retained. -/
theorem C7_balance_normalization (wallet_id : Int)
    (stored : Option AccountBalance) (fields : List (String × PyVal))
    (hnw : assocLookup fields "balances" = none) (p : PyVal)
    (hshape : isUnrecognizedShape p = true) :
    process_balance_data wallet_id stored
        (PyVal.dict [("balances", PyVal.list [PyVal.dict fields])]) =
      process_balance_data wallet_id stored (PyVal.dict fields) ∧
    process_balance_data wallet_id stored (PyVal.list [PyVal.dict fields]) =
      process_balance_data wallet_id stored (PyVal.dict fields) ∧
    process_balance_data wallet_id stored p = stored := by
  have hwrap : normalize_balance_payload
      (PyVal.dict [("balances", PyVal.list [PyVal.dict fields])]) =
        some (PyVal.dict fields) := by
    simp [normalize_balance_payload, assocLookup]
  have hdirect : normalize_balance_payload (PyVal.dict fields) =
      some (PyVal.dict fields) := by
    simp [normalize_balance_payload, hnw]
  have hlist : normalize_balance_payload (PyVal.list [PyVal.dict fields]) =
      some (PyVal.dict fields) := rfl
  refine ⟨?_, ?_, ?_⟩
  · unfold process_balance_data
    rw [hwrap, hdirect]
  · unfold process_balance_data
    rw [hlist, hdirect]
  · cases p with
    | num q => rfl
    | str s => rfl
    | null => rfl
    | list items => simp [isUnrecognizedShape] at hshape
    | dict fs => simp [isUnrecognizedShape] at hshape

/-- A direct balance record fixture (no `balances` wrapper key). -/
def balanceFieldsEx : List (String × PyVal) :=
  [("total_margin", PyVal.num 1000), ("used_margin", PyVal.num 950),
   ("available_margin", PyVal.num 50)]

/-- Witness for C7 at the concrete record, wrapped and direct, and at a
string payload. -/
theorem C7_balance_normalization_witness :
    process_balance_data 1 (some accountEx)
        (PyVal.dict [("balances", PyVal.list [PyVal.dict balanceFieldsEx])]) =
      process_balance_data 1 (some accountEx) (PyVal.dict balanceFieldsEx) ∧
    process_balance_data 1 (some accountEx) (PyVal.str "garbage") =
      some accountEx := by
  have h := C7_balance_normalization 1 (some accountEx) balanceFieldsEx rfl
    (PyVal.str "garbage") rfl
  exact ⟨h.1, h.2.2⟩

/-- Helper: a conditional whose then-branch is a `some` and whose
else-branch is known to be a `some` is itself a `some`. -/
theorem exists_eq_some_of_ite {α : Type} (c : Prop) [Decidable c] (x : α)
    (t : Option α) (ht : ∃ r, t = some r) :
    ∃ r, (if c then some x else t) = some r := by
  split_ifs
  · exact ⟨x, rfl⟩
  · exact ht

/-- Helper for C8: whenever its divisor is nonzero,
`estimate_time_to_liquidation` does not raise — it returns some
`Option ℚ` result. -/
theorem estimate_time_isSome (rc : RiskCalculator)
    (current_price liquidation_price : ℚ) (position_side : PositionSide)
    (price_trend : Option ℚ) (h : current_price ≠ 0) :
    ∃ hours, rc.estimate_time_to_liquidation current_price liquidation_price
        position_side price_trend = some hours := by
  have hdist : rc.calculate_distance_to_liquidation current_price liquidation_price =
      some (|current_price - liquidation_price| / current_price * 100) := by
    unfold RiskCalculator.calculate_distance_to_liquidation
    rw [if_neg h]
  unfold RiskCalculator.estimate_time_to_liquidation
  rw [hdist]
  exact exists_eq_some_of_ite _ _ _ (exists_eq_some_of_ite _ _ _ ⟨_, rfl⟩)

/-- Counterexample to claim C8 as stated: `calculate_risk_metrics` is
not free of effects on its inputs — at the concrete LONG fixture the
call succeeds and has written the computed mark price `100` into the
input position, whose mark price was `None` before the call. -/
theorem C8_counterexample :
    (defaultRiskCalculator.calculate_risk_metrics positionEx accountEx
        none none none).map (fun r => r.1.mark_price) = some (some 100) ∧
    positionEx.mark_price = none := by
  constructor
  · have hmark : pyOr none (pyOr positionEx.mark_price positionEx.entry_price) =
        100 := rfl
    have hdist : defaultRiskCalculator.calculate_distance_to_liquidation
        (pyOr none (pyOr positionEx.mark_price positionEx.entry_price))
        (defaultRiskCalculator.calculate_liquidation_price positionEx none) =
        some (|pyOr none (pyOr positionEx.mark_price positionEx.entry_price) -
            defaultRiskCalculator.calculate_liquidation_price positionEx none| /
          pyOr none (pyOr positionEx.mark_price positionEx.entry_price) * 100) := by
      unfold RiskCalculator.calculate_distance_to_liquidation
      rw [if_neg (by rw [hmark]; norm_num)]
    obtain ⟨hours, hest⟩ := estimate_time_isSome defaultRiskCalculator
      (pyOr none (pyOr positionEx.mark_price positionEx.entry_price))
      (defaultRiskCalculator.calculate_liquidation_price positionEx none)
      positionEx.position_side none (by rw [hmark]; norm_num)
    simp only [RiskCalculator.calculate_risk_metrics]
    rw [hdist, hest]
    rfl
  · rfl

/-- Claim C8 (amended): when the effective price (`current_price or
position.mark_price or position.entry_price`) is zero,
`calculate_risk_metrics` raises `ZeroDivisionError` before any field
is written, so no update occurs; otherwise it returns
deterministically, leaving the account snapshot and the position's
identity fields (wallet, symbol, quantity, side, entry price,
unrealized P&L) unchanged, but updating the input position in place —
its mark price is set to the effective price, its liquidation price to
the computed liquidation price, and its margin ratio to the account's
margin ratio — and the returned metrics hold that updated position and
the unchanged account. -/
theorem C8_frame_conditions (rc : RiskCalculator) (p : Position)
    (b : AccountBalance) (current_price leverage price_trend : Option ℚ) :
    (pyOr current_price (pyOr p.mark_price p.entry_price) = 0 →
      rc.calculate_risk_metrics p b current_price leverage price_trend = none) ∧
    (pyOr current_price (pyOr p.mark_price p.entry_price) ≠ 0 →
      ∃ p' metrics,
        rc.calculate_risk_metrics p b current_price leverage price_trend =
          some (p', b, metrics) ∧
        p'.wallet_id = p.wallet_id ∧
        p'.symbol = p.symbol ∧
        p'.qty = p.qty ∧
        p'.side = p.side ∧
        p'.entry_price = p.entry_price ∧
        p'.unrealized_pnl = p.unrealized_pnl ∧
        p'.mark_price = some (pyOr current_price (pyOr p.mark_price p.entry_price)) ∧
        p'.liquidation_price = some (rc.calculate_liquidation_price p leverage) ∧
        p'.margin_ratio = some b.margin_ratio ∧
        metrics.position = p' ∧
        metrics.account_balance = b) := by
  constructor
  · intro hzero
    have hdist : rc.calculate_distance_to_liquidation
        (pyOr current_price (pyOr p.mark_price p.entry_price))
        (rc.calculate_liquidation_price p leverage) = none := by
      unfold RiskCalculator.calculate_distance_to_liquidation
      rw [if_pos hzero]
    simp only [RiskCalculator.calculate_risk_metrics]
    rw [hdist]
  · intro hmark
    have hdist : rc.calculate_distance_to_liquidation
        (pyOr current_price (pyOr p.mark_price p.entry_price))
        (rc.calculate_liquidation_price p leverage) =
        some (|pyOr current_price (pyOr p.mark_price p.entry_price) -
            rc.calculate_liquidation_price p leverage| /
          pyOr current_price (pyOr p.mark_price p.entry_price) * 100) := by
      unfold RiskCalculator.calculate_distance_to_liquidation
      rw [if_neg hmark]
    obtain ⟨hours, hest⟩ := estimate_time_isSome rc
      (pyOr current_price (pyOr p.mark_price p.entry_price))
      (rc.calculate_liquidation_price p leverage) p.position_side price_trend hmark
    have heq : rc.calculate_risk_metrics p b current_price leverage price_trend =
        some ({ p with
                  mark_price :=
                    some (pyOr current_price (pyOr p.mark_price p.entry_price))
                  liquidation_price := some (rc.calculate_liquidation_price p leverage)
                  margin_ratio := some b.margin_ratio }, b,
              { position :=
                  { p with
                      mark_price :=
                        some (pyOr current_price (pyOr p.mark_price p.entry_price))
                      liquidation_price :=
                        some (rc.calculate_liquidation_price p leverage)
                      margin_ratio := some b.margin_ratio }
                account_balance := b
                liquidation_price := rc.calculate_liquidation_price p leverage
                distance_to_liquidation :=
                  |pyOr current_price (pyOr p.mark_price p.entry_price) -
                      rc.calculate_liquidation_price p leverage| /
                    pyOr current_price (pyOr p.mark_price p.entry_price) * 100
                estimated_hours_to_liquidation := hours
                recommended_actions :=
                  rc.generate_recommendations p b b.margin_ratio 60 }) := by
      simp only [RiskCalculator.calculate_risk_metrics]
      rw [hdist, hest]
    exact ⟨_, _, heq, rfl, rfl, rfl, rfl, rfl, rfl, rfl, rfl, rfl, rfl, rfl⟩

/-- A LONG position fixture with entry price `0` and no mark price:
the effective price is `0`, the error path of C8. -/
def positionZeroEntry : Position :=
  { wallet_id := 1, symbol := "ETH-PERP", qty := 1, side := "LONG"
    entry_price := 0, mark_price := none, liquidation_price := none
    margin_ratio := none, unrealized_pnl := none }

/-- Witness for C8 exercising both branches: the zero-entry fixture
raises (no update), and the healthy fixture returns the updated
position with the account unchanged. -/
theorem C8_frame_conditions_witness :
    defaultRiskCalculator.calculate_risk_metrics positionZeroEntry accountEx
        none none none = none ∧
    (∃ p' metrics,
      defaultRiskCalculator.calculate_risk_metrics positionEx accountEx
          none none none = some (p', accountEx, metrics) ∧
      p'.wallet_id = positionEx.wallet_id ∧
      p'.symbol = positionEx.symbol ∧
      p'.qty = positionEx.qty ∧
      p'.side = positionEx.side ∧
      p'.entry_price = positionEx.entry_price ∧
      p'.unrealized_pnl = positionEx.unrealized_pnl ∧
      p'.mark_price =
        some (pyOr none (pyOr positionEx.mark_price positionEx.entry_price)) ∧
      p'.liquidation_price =
        some (defaultRiskCalculator.calculate_liquidation_price positionEx none) ∧
      p'.margin_ratio = some accountEx.margin_ratio ∧
      metrics.position = p' ∧
      metrics.account_balance = accountEx) := by
  have h0 := C8_frame_conditions defaultRiskCalculator positionZeroEntry accountEx
    none none none
  have h1 := C8_frame_conditions defaultRiskCalculator positionEx accountEx
    none none none
  exact ⟨h0.1 (by decide), h1.2 (by decide)⟩

/-- Claim C9: whenever the current margin ratio exceeds the target
ratio, with positive total and used margin and a positive target, the
additional-collateral amount computed in `generate_recommendations` is
strictly positive, it appears in the recommendation list, and adding
it via `calculate_margin_impact` yields a margin ratio exactly equal
to the target. -/
theorem C9_add_collateral_exact (rc : RiskCalculator) (p : Position)
    (b : AccountBalance) (target_ratio : ℚ)
    (htot : 0 < b.total_margin) (hused : 0 < b.used_margin)
    (htarget : 0 < target_ratio) (hgt : target_ratio < b.margin_ratio) :
    0 < b.used_margin * (100 / target_ratio - 100 / b.margin_ratio) ∧
    rc.calculate_margin_impact b
        (b.used_margin * (100 / target_ratio - 100 / b.margin_ratio)) =
      target_ratio ∧
    Recommendation.addCollateral
        (b.used_margin * (100 / target_ratio - 100 / b.margin_ratio))
        (rc.calculate_margin_impact b
          (b.used_margin * (100 / target_ratio - 100 / b.margin_ratio)))
      ∈ rc.generate_recommendations p b b.margin_ratio target_ratio := by
  have htot' : b.total_margin ≠ 0 := ne_of_gt htot
  have hused' : b.used_margin ≠ 0 := ne_of_gt hused
  have htarget' : target_ratio ≠ 0 := ne_of_gt htarget
  have hmr : b.margin_ratio = b.used_margin / b.total_margin * 100 := by
    unfold AccountBalance.margin_ratio
    rw [if_neg htot']
  have hpos : 0 < b.used_margin * (100 / target_ratio - 100 / b.margin_ratio) := by
    apply mul_pos hused
    rw [sub_pos]
    exact div_lt_div_of_pos_left (by norm_num) htarget hgt
  have hnewtot : b.total_margin +
      b.used_margin * (100 / target_ratio - 100 / b.margin_ratio) =
        b.used_margin * 100 / target_ratio := by
    rw [hmr]
    field_simp
    ring
  have himp : rc.calculate_margin_impact b
      (b.used_margin * (100 / target_ratio - 100 / b.margin_ratio)) =
        target_ratio := by
    simp only [RiskCalculator.calculate_margin_impact]
    rw [hnewtot]
    rw [if_neg (show b.used_margin * 100 / target_ratio ≠ 0 from
      (by positivity : (0:ℚ) < b.used_margin * 100 / target_ratio).ne')]
    field_simp
    ring
  refine ⟨hpos, himp, ?_⟩
  simp only [RiskCalculator.generate_recommendations]
  rw [if_neg (not_le.mpr hgt), if_pos hpos]
  simp [List.mem_append]

/-- Witness for C9 at the concrete account (ratio 95, target 60). -/
theorem C9_add_collateral_exact_witness :
    0 < accountEx.used_margin * (100 / 60 - 100 / accountEx.margin_ratio) ∧
    defaultRiskCalculator.calculate_margin_impact accountEx
        (accountEx.used_margin * (100 / 60 - 100 / accountEx.margin_ratio)) = 60 ∧
    Recommendation.addCollateral
        (accountEx.used_margin * (100 / 60 - 100 / accountEx.margin_ratio))
        (defaultRiskCalculator.calculate_margin_impact accountEx
          (accountEx.used_margin * (100 / 60 - 100 / accountEx.margin_ratio)))
      ∈ defaultRiskCalculator.generate_recommendations positionEx accountEx
          accountEx.margin_ratio 60 :=
  C9_add_collateral_exact defaultRiskCalculator positionEx accountEx 60
    (by norm_num [accountEx]) (by norm_num [accountEx]) (by norm_num)
    (by norm_num [accountEx, AccountBalance.margin_ratio])

end Meridian
